import Mathlib

/-!
Verification of the compartment-partitioning and sample-plot core of the
community-forest-mapping repository (gis-service).

The two modules embedded here are
`src/gis-service/src/compartment_generator.py` and
`src/gis-service/src/sample_plot_generator.py`.

Embedding conventions:
* Python floats become exact rationals (`ℚ`); float arithmetic is idealized
  as exact arithmetic.
* Shapely geometry is modelled on the class of simple polygons given as a
  counter-clockwise vertex ring with rational coordinates.  The geometric
  primitives the two modules call (`area`, `bounds`, `contains`,
  intersection with an axis-aligned half-plane, `split` by an axis-aligned
  line) are implemented exactly (shoelace area, Sutherland-Hodgman
  clipping, convex containment by edge orientation).
* The cutting "line" that `_find_bisecting_line` builds as the boundary of
  a box of width 2e-4 around the bounding-box midpoint is idealized to the
  zero-width axis-aligned line through that midpoint, and `shapely.ops.split`
  by that line is modelled as the two half-plane clips (the first returned
  piece is taken to be the low-coordinate side).  The source in fact keeps
  only `geoms[0], geoms[1]` of the three or more fragments that the
  2e-4-wide box boundary produces, silently dropping a sliver of area at
  every split; the model's split is an exact two-piece partition instead.
  Statements about area totals are therefore stated as inequalities that the
  real, area-losing split also satisfies, except where area loss is itself
  the point being proved.
* File I/O (GeoJSON loading/saving) is outside the modelled core; the
  functions return the in-memory lists the files would serialize.
* `random.uniform` draws are abstracted as an ambient stream
  `ℕ → ℚ × ℚ` of candidate coordinates, consumed at an explicitly
  threaded position.
-/

/-- Exact model of Python `abs` on floats, restricted to rationals. -/
def ratAbs (q : ℚ) : ℚ := if q < 0 then -q else q

/-- Exact model of Python `min` on two floats. -/
def ratMin (a b : ℚ) : ℚ := if a ≤ b then a else b

/-- Exact model of Python `max` on two floats. -/
def ratMax (a b : ℚ) : ℚ := if a ≤ b then b else a

/-- A polygon: counter-clockwise ring of 2-D rational coordinates
(the closing duplicate vertex of GeoJSON rings is not stored). -/
abbrev CPoly := List (ℚ × ℚ)

/-- Consecutive vertex pairs of the ring, cyclically (each edge once). -/
def cyclicPairs (vs : CPoly) : List ((ℚ × ℚ) × (ℚ × ℚ)) :=
  vs.zip (vs.drop 1 ++ vs.take 1)

/-- Cross product of `b - a` with `c - a`; positive iff `c` lies strictly to
the left of the directed line `a → b`. -/
def cross2 (a b c : ℚ × ℚ) : ℚ :=
  (b.1 - a.1) * (c.2 - a.2) - (b.2 - a.2) * (c.1 - a.1)

/-- Shapely `polygon.area`: absolute shoelace area of the ring. -/
def polyArea (vs : CPoly) : ℚ :=
  ratAbs (((cyclicPairs vs).map (fun e => e.1.1 * e.2.2 - e.2.1 * e.1.2)).sum) / 2

/-- Shapely `polygon.bounds`: `(minx, miny, maxx, maxy)` of the vertices. -/
def polyBounds (vs : CPoly) : ℚ × ℚ × ℚ × ℚ :=
  match vs with
  | [] => (0, 0, 0, 0)
  | v :: rest =>
    rest.foldl
      (fun b p => (ratMin b.1 p.1, ratMin b.2.1 p.2, ratMax b.2.2.1 p.1, ratMax b.2.2.2 p.2))
      (v.1, v.2, v.1, v.2)

/-- Shapely `polygon.contains(point)` on the convex model class: the point is
in the open interior iff it is strictly left of every directed edge of the
counter-clockwise ring. -/
def polyContains (vs : CPoly) (p : ℚ × ℚ) : Bool :=
  decide (3 ≤ vs.length) &&
    (cyclicPairs vs).all (fun e => decide (0 < cross2 e.1 e.2 p))

/-- Cyclically consecutive vertex triples of the ring. -/
def cyclicTriples (vs : CPoly) : List ((ℚ × ℚ) × (ℚ × ℚ) × (ℚ × ℚ)) :=
  vs.zip ((vs.drop 1 ++ vs.take 1).zip (vs.drop 2 ++ vs.take 2))

/-- Shapely `polygon.is_valid` on the model class: at least three vertices
and strictly convex counter-clockwise (every cyclically consecutive vertex
triple turns left).  This excludes the invalid inputs the spec names:
self-intersecting rings, zero-area rings, and rings with fewer than three
distinct vertices. -/
def is_valid (vs : CPoly) : Bool :=
  decide (3 ≤ vs.length) &&
    (cyclicTriples vs).all (fun t => decide (0 < cross2 t.1 t.2.1 t.2.2))

/-- An axis-aligned cutting line (idealization of the 2e-4-wide box boundary
built by `_find_bisecting_line`). -/
inductive CutLine where
  | vertical : ℚ → CutLine
  | horizontal : ℚ → CutLine
deriving DecidableEq, Repr

/-- Coordinate of a point compared against the cut (x for a vertical cut,
y for a horizontal cut). -/
def cut_coord (cut : CutLine) (p : ℚ × ℚ) : ℚ :=
  match cut with
  | .vertical _ => p.1
  | .horizontal _ => p.2

/-- Position of the cutting line. -/
def cut_value : CutLine → ℚ
  | .vertical x => x
  | .horizontal y => y

/-- Membership in the closed half-plane on the low (`true`) or high
(`false`) side of the cut. -/
def inside_half (cut : CutLine) (low : Bool) (p : ℚ × ℚ) : Bool :=
  if low then decide (cut_coord cut p ≤ cut_value cut)
  else decide (cut_value cut ≤ cut_coord cut p)

/-- Intersection point of segment `a b` with the cutting line. -/
def segment_hit (cut : CutLine) (a b : ℚ × ℚ) : ℚ × ℚ :=
  let t := (cut_value cut - cut_coord cut a) / (cut_coord cut b - cut_coord cut a)
  (a.1 + t * (b.1 - a.1), a.2 + t * (b.2 - a.2))

/-- Sutherland-Hodgman clip of the ring against one closed half-plane;
models shapely `polygon.intersection(box(...))` with a box covering the
polygon's full extent on the chosen side of the cut. -/
def clip_half (polygon : CPoly) (cut : CutLine) (low : Bool) : CPoly :=
  (cyclicPairs polygon).foldr
    (fun e acc =>
      (if inside_half cut low e.1 then
        if inside_half cut low e.2 then [e.2]
        else [segment_hit cut e.1 e.2]
      else
        if inside_half cut low e.2 then [segment_hit cut e.1 e.2, e.2]
        else []) ++ acc)
    []

/-- One produced compartment: its polygon and its identifier string
(mirrors the `(polygon, compartment_id)` tuples of
`compartment_generator.py`). -/
structure Compartment where
  polygon : CPoly
  compartment_id : String
deriving DecidableEq, Repr

/-- Embedding of `CompartmentGenerator._find_bisecting_line`: try the
vertical line through the horizontal midpoint of the bounding box; if both
sides of the polygon have positive area return it, otherwise try the
horizontal line through the vertical midpoint; otherwise `none`.
The `target_area` parameter is unused, as in the source. -/
def find_bisecting_line (polygon : CPoly) (_target_area : ℚ) : Option CutLine :=
  let b := polyBounds polygon
  let mid_x := (b.1 + b.2.2.1) / 2
  let left := clip_half polygon (.vertical mid_x) true
  let right := clip_half polygon (.vertical mid_x) false
  if 0 < polyArea left ∧ 0 < polyArea right then some (.vertical mid_x)
  else
    let mid_y := (b.2.1 + b.2.2.2) / 2
    let top := clip_half polygon (.horizontal mid_y) false
    let bottom := clip_half polygon (.horizontal mid_y) true
    if 0 < polyArea top ∧ 0 < polyArea bottom then some (.horizontal mid_y)
    else none

/-- Embedding of `CompartmentGenerator._split_polygon`: split by the cutting
line; when the split yields two or more pieces return the first two (low
side first), otherwise return the original polygon and `None`.  Idealized:
the source's split against the 2e-4-wide box boundary yields at least three
fragments and keeps only `geoms[0], geoms[1]`, losing a sliver of area per
split; here the two returned pieces partition the polygon exactly, so the
model's compartment area totals are upper bounds for the program's. -/
def split_polygon (polygon : CPoly) (line : CutLine) : CPoly × Option CPoly :=
  let piece1 := clip_half polygon line true
  let piece2 := clip_half polygon line false
  if 0 < polyArea piece1 ∧ 0 < polyArea piece2 then (piece1, some piece2)
  else (polygon, none)

/-- Recursion core of `CompartmentGenerator._recursive_bisection`,
structurally recursive on `gas = 11 - depth`, the number of recursion
levels the depth cap still allows: the source test `depth > 10` is exactly
`gas = 0`, and each recursive call replaces `depth + 1` by `gas - 1`.
The Python shared mutable accumulator list is threaded explicitly; the
early `return` when the accumulator already holds `num_compartments`
entries, the 10%-of-target acceptance, the depth cap, the acceptance on
bisection failure, and the left-then-right recursion are all mirrored. -/
def bisect_go : ℕ → CPoly → ℤ → ℚ → List Compartment → List Compartment
  | gas, polygon, num_compartments, target_area, compartments =>
    if num_compartments ≤ (compartments.length : ℤ) then compartments
    else if ratAbs (polyArea polygon - target_area) < target_area * (1/10) then
      compartments ++ [⟨polygon, "C" ++ toString (compartments.length + 1)⟩]
    else
      match gas with
      | 0 => compartments ++ [⟨polygon, "C" ++ toString (compartments.length + 1)⟩]
      | gas' + 1 =>
        match find_bisecting_line polygon target_area with
        | none => compartments ++ [⟨polygon, "C" ++ toString (compartments.length + 1)⟩]
        | some line =>
          let pieces := split_polygon polygon line
          let acc1 :=
            if 0 < polyArea pieces.1 then
              bisect_go gas' pieces.1 num_compartments target_area compartments
            else compartments
          match pieces.2 with
          | none => acc1
          | some right =>
            if 0 < polyArea right then
              bisect_go gas' right num_compartments target_area acc1
            else acc1

/-- Embedding of `CompartmentGenerator._recursive_bisection` at recursion
depth `depth`: the acceptance condition
`abs(area - target) < 0.1 * target or depth > 10` and the `depth + 1`
recursion are realized by `bisect_go` on the remaining level budget
`11 - depth` (`depth > 10` holds iff `11 - depth = 0`). -/
def recursive_bisection (polygon : CPoly) (num_compartments : ℤ)
    (target_area : ℚ) (compartments : List Compartment) (depth : ℕ) :
    List Compartment :=
  bisect_go (11 - depth) polygon num_compartments target_area compartments

/-- Embedding of `CompartmentGenerator._validate_compartments`: returns the
ids of the compartments whose area deviates from the mean by more than 5% of
the mean (the source only logs a warning for each; it rejects nothing). -/
def validate_compartments (compartments : List Compartment) : List String :=
  let areas := compartments.map (fun c => polyArea c.polygon)
  let mean_area := areas.sum / (areas.length : ℚ)
  let tolerance := mean_area * (5/100)
  (compartments.filter
    (fun c => decide (tolerance < ratAbs (polyArea c.polygon - mean_area)))).map
    (fun c => c.compartment_id)

/-- Embedding of `CompartmentGenerator.generate_compartments` up to the
in-memory compartment list (GeoDataFrame construction and GeoJSON export are
I/O outside the modelled core).  An invalid boundary raises, and
`num_compartments = 0` raises through the float division
`total_area / num_compartments`; both surface as `ValueError`. -/
def generate_compartments (boundary_geometry : CPoly) (num_compartments : ℤ) :
    Except String (List Compartment) :=
  if is_valid boundary_geometry = false then
    Except.error "Failed to generate compartments: Invalid boundary geometry"
  else if num_compartments = 0 then
    Except.error "Failed to generate compartments: float division by zero"
  else
    let total_area := polyArea boundary_geometry
    let target_area := total_area / (num_compartments : ℚ)
    Except.ok (recursive_bisection boundary_geometry num_compartments target_area [] 0)

/-- One generated sample plot (the dictionary built by
`sample_plot_generator.py`: plot id, owning compartment id, and the point
coordinate stored as longitude = x, latitude = y). -/
structure SamplePlot where
  plot_id : String
  compartment_id : String
  longitude : ℚ
  latitude : ℚ
deriving DecidableEq, Repr

/-- Python `f"{n:02d}"` for a natural number: zero-pad to at least two
digits. -/
def format_02d (n : ℕ) : String :=
  if n < 10 then "0" ++ toString n else toString n

/-- The plot identifier `f"SP-{counter:02d}"`. -/
def plot_label (n : ℕ) : String := "SP-" ++ format_02d n

/-- Python `round` on an exact rational: round half to even. -/
def pyRound (x : ℚ) : ℤ :=
  let f := ⌊x⌋
  if x - (f : ℚ) < 1/2 then f
  else if (1 : ℚ)/2 < x - (f : ℚ) then f + 1
  else if f % 2 = 0 then f else f + 1

/-- The sampling planner inlined in `generate_sample_plots`:
`num_plots = max(min_plots_per_compartment, int(round(area * intensity / 10000)))`. -/
def plan_sample_count (compartment_area : ℚ) (sampling_intensity : ℚ)
    (min_plots_per_compartment : ℤ) : ℤ :=
  max min_plots_per_compartment
    (pyRound (compartment_area * sampling_intensity / 10000))

/-- Python `int(num_plots ** 0.5)`: the integer square root, computed here
as the largest `k ≤ n` with `k * k ≤ n`. -/
def int_sqrt (n : ℕ) : ℕ :=
  ((List.range (n + 1)).filter (fun k => k * k ≤ n)).length - 1

/-- The grid dimension `grid_size = int((num_plots ** 0.5) + 1)` of
`_generate_systematic_plots`. -/
def grid_size (num_plots : ℕ) : ℕ := int_sqrt num_plots + 1

/-- The row-major candidate order of the nested
`for i in range(grid_size): for j in range(grid_size):` loops. -/
def grid_pairs (g : ℕ) : List (ℕ × ℕ) :=
  (List.range g).foldr
    (fun i acc => ((List.range g).map (fun j => (i, j))) ++ acc) []

/-- Loop body of `_generate_systematic_plots`: walk the candidate cells in
order, stop as soon as `num_plots` plots exist (the double `break`), test
strict containment, and on acceptance increment the shared plot counter and
append the plot.  Returns the plots plus the final counter. -/
def systematic_loop (compartment_geometry : CPoly) (compartment_id : String)
    (num_plots : ℕ) (minx miny x_step y_step : ℚ) :
    List (ℕ × ℕ) → List SamplePlot → ℕ → List SamplePlot × ℕ
  | [], plots, plot_counter => (plots, plot_counter)
  | ij :: rest, plots, plot_counter =>
    if num_plots ≤ plots.length then (plots, plot_counter)
    else
      let x := minx + ((ij.1 : ℚ) + 1/2) * x_step
      let y := miny + ((ij.2 : ℚ) + 1/2) * y_step
      if polyContains compartment_geometry (x, y) then
        systematic_loop compartment_geometry compartment_id num_plots minx miny
          x_step y_step rest
          (plots ++ [⟨plot_label (plot_counter + 1), compartment_id, x, y⟩])
          (plot_counter + 1)
      else
        systematic_loop compartment_geometry compartment_id num_plots minx miny
          x_step y_step rest plots plot_counter

/-- Embedding of `SamplePlotGenerator._generate_systematic_plots`. -/
def generate_systematic_plots (compartment_geometry : CPoly)
    (compartment_id : String) (num_plots : ℕ) (plot_counter : ℕ) :
    List SamplePlot × ℕ :=
  let b := polyBounds compartment_geometry
  let g := grid_size num_plots
  systematic_loop compartment_geometry compartment_id num_plots b.1 b.2.1
    ((b.2.2.1 - b.1) / (g : ℚ)) ((b.2.2.2 - b.2.1) / (g : ℚ))
    (grid_pairs g) [] plot_counter

/-- Loop body of `_generate_random_plots`: up to `max_attempts` draws from
the candidate stream (the model of `random.uniform` pairs), keeping the
contained ones until `num_plots` plots exist.  Structural recursion on the
remaining attempt budget; also threads the stream position and the shared
plot counter. -/
def random_loop (compartment_geometry : CPoly) (compartment_id : String)
    (num_plots : ℕ) (stream : ℕ → ℚ × ℚ) :
    ℕ → ℕ → ℕ → List SamplePlot → List SamplePlot × ℕ × ℕ
  | 0, pos, plot_counter, plots => (plots, plot_counter, pos)
  | budget + 1, pos, plot_counter, plots =>
    if plots.length < num_plots then
      let xy := stream pos
      if polyContains compartment_geometry xy then
        random_loop compartment_geometry compartment_id num_plots stream budget
          (pos + 1) (plot_counter + 1)
          (plots ++ [⟨plot_label (plot_counter + 1), compartment_id, xy.1, xy.2⟩])
      else
        random_loop compartment_geometry compartment_id num_plots stream budget
          (pos + 1) plot_counter plots
    else (plots, plot_counter, pos)

/-- Embedding of `SamplePlotGenerator._generate_random_plots`
(`max_attempts = num_plots * 10`). -/
def generate_random_plots (compartment_geometry : CPoly)
    (compartment_id : String) (num_plots : ℕ) (stream : ℕ → ℚ × ℚ)
    (pos : ℕ) (plot_counter : ℕ) : List SamplePlot × ℕ × ℕ :=
  random_loop compartment_geometry compartment_id num_plots stream
    (num_plots * 10) pos plot_counter []

/-- Embedding of `SamplePlotGenerator._generate_plots_for_compartment`:
dispatch on the distribution method string; every string other than
`"systematic"` takes the random branch. -/
def generate_plots_for_compartment (compartment_geometry : CPoly)
    (compartment_id : String) (num_plots : ℕ) (distribution_method : String)
    (stream : ℕ → ℚ × ℚ) (pos : ℕ) (plot_counter : ℕ) :
    List SamplePlot × ℕ × ℕ :=
  if distribution_method = "systematic" then
    let r := generate_systematic_plots compartment_geometry compartment_id
      num_plots plot_counter
    (r.1, r.2, pos)
  else
    generate_random_plots compartment_geometry compartment_id num_plots
      stream pos plot_counter

/-- The `for idx, row in gdf_compartments.iterrows()` loop of
`generate_sample_plots`: per compartment, plan the plot count from its area
and extend the accumulated plot list, threading the shared plot counter and
the random stream position. -/
def sample_plots_loop (sampling_intensity : ℚ) (min_plots_per_compartment : ℤ)
    (distribution_method : String) (stream : ℕ → ℚ × ℚ) :
    List (String × CPoly) → ℕ → ℕ → List SamplePlot → List SamplePlot
  | [], _, _, acc => acc
  | c :: rest, pos, plot_counter, acc =>
    let num_plots := (plan_sample_count (polyArea c.2) sampling_intensity
      min_plots_per_compartment).toNat
    let r := generate_plots_for_compartment c.2 c.1 num_plots
      distribution_method stream pos plot_counter
    sample_plots_loop sampling_intensity min_plots_per_compartment
      distribution_method stream rest r.2.2 r.2.1 (acc ++ r.1)

/-- Embedding of `SamplePlotGenerator.generate_sample_plots` up to the
in-memory plot list (GeoJSON reading/writing is I/O outside the modelled
core; the compartments argument stands for the loaded rows, each an id with
its polygon).  The plot counter is reset to 0 at the start of each request;
an empty compartment collection raises `ValueError`. -/
def generate_sample_plots (compartments : List (String × CPoly))
    (sampling_intensity : ℚ) (min_plots_per_compartment : ℤ)
    (distribution_method : String) (stream : ℕ → ℚ × ℚ) :
    Except String (List SamplePlot) :=
  if compartments.isEmpty then
    Except.error "Failed to generate sample plots: Compartment file is empty"
  else
    Except.ok (sample_plots_loop sampling_intensity min_plots_per_compartment
      distribution_method stream compartments 0 0 [])


/-- The id sequence `["C1", ..., "Ck"]` starting after `k₀` existing
compartments would be `seq_comp_ids` at offset; here only the plain
sequence from 1 is needed. -/
def seq_comp_ids (k : ℕ) : List String :=
  (List.range k).map (fun i => "C" ++ toString (i + 1))

theorem seq_comp_ids_succ (k : ℕ) :
    seq_comp_ids (k + 1) = seq_comp_ids k ++ ["C" ++ toString (k + 1)] := by
  simp [seq_comp_ids, List.range_succ]

/-- Appending the next compartment preserves the sequential-id invariant. -/
theorem ids_append (acc : List Compartment) (polygon : CPoly)
    (h : acc.map Compartment.compartment_id = seq_comp_ids acc.length) :
    (acc ++ [Compartment.mk polygon ("C" ++ toString (acc.length + 1))]).map
        Compartment.compartment_id =
      seq_comp_ids
        (acc ++ [Compartment.mk polygon ("C" ++ toString (acc.length + 1))]).length := by
  simp [h, seq_comp_ids_succ]

/-- Every run of the bisection core preserves the sequential-id invariant of
its accumulator: each accepted piece is labelled `"C" ++ (current length + 1)`
at the moment it is appended. -/
theorem bisect_go_ids :
    ∀ (gas : ℕ) (polygon : CPoly) (num_compartments : ℤ) (target_area : ℚ)
      (compartments : List Compartment),
      compartments.map Compartment.compartment_id = seq_comp_ids compartments.length →
      (bisect_go gas polygon num_compartments target_area compartments).map
          Compartment.compartment_id =
        seq_comp_ids
          (bisect_go gas polygon num_compartments target_area compartments).length := by
  intro gas
  induction gas with
  | zero =>
    intro polygon num_compartments target_area compartments h
    rw [bisect_go]
    by_cases h1 : num_compartments ≤ (compartments.length : ℤ)
    · rw [if_pos h1]; exact h
    · rw [if_neg h1]
      by_cases h2 :
        ratAbs (polyArea polygon - target_area) < target_area * (1/10)
      · rw [if_pos h2]; exact ids_append compartments polygon h
      · rw [if_neg h2]; exact ids_append compartments polygon h
  | succ gas ih =>
    intro polygon num_compartments target_area compartments h
    rw [bisect_go]
    by_cases h1 : num_compartments ≤ (compartments.length : ℤ)
    · rw [if_pos h1]; exact h
    · rw [if_neg h1]
      by_cases h2 :
        ratAbs (polyArea polygon - target_area) < target_area * (1/10)
      · rw [if_pos h2]; exact ids_append compartments polygon h
      · rw [if_neg h2]
        cases hline : find_bisecting_line polygon target_area with
        | none => exact ids_append compartments polygon h
        | some line =>
          dsimp only
          have hacc1 :
              (if 0 < polyArea (split_polygon polygon line).1 then
                  bisect_go gas (split_polygon polygon line).1 num_compartments
                    target_area compartments
                else compartments).map Compartment.compartment_id =
              seq_comp_ids
                (if 0 < polyArea (split_polygon polygon line).1 then
                    bisect_go gas (split_polygon polygon line).1 num_compartments
                      target_area compartments
                  else compartments).length := by
            by_cases hl : 0 < polyArea (split_polygon polygon line).1
            · rw [if_pos hl]; exact ih _ _ _ _ h
            · rw [if_neg hl]; exact h
          cases hsnd : (split_polygon polygon line).2 with
          | none => exact hacc1
          | some right =>
            dsimp only
            by_cases hr : 0 < polyArea right
            · rw [if_pos hr]; exact ih _ _ _ _ hacc1
            · rw [if_neg hr]; exact hacc1

/-- Claim C1: for any successful partition producing `k` compartments, the
ids are exactly `C1, ..., Ck` in creation order — the id of the compartment
at position `i` is `C(i+1)`, with no gaps and no duplicates (so the sorted
id set is `{C1, ..., Ck}`). -/
theorem c1_compartment_ids_sequential (boundary_geometry : CPoly)
    (num_compartments : ℤ) (cs : List Compartment)
    (h : generate_compartments boundary_geometry num_compartments = Except.ok cs) :
    cs.map Compartment.compartment_id = seq_comp_ids cs.length := by
  unfold generate_compartments at h
  by_cases hv : is_valid boundary_geometry = false
  · rw [if_pos hv] at h; cases h
  · rw [if_neg hv] at h
    by_cases hn : num_compartments = 0
    · rw [if_pos hn] at h; cases h
    · rw [if_neg hn] at h
      have hcs := Except.ok.inj h
      rw [← hcs]
      unfold recursive_bisection
      exact bisect_go_ids _ _ _ _ [] (by simp [seq_comp_ids])

/-- The planner never goes below the configured minimum. -/
theorem plan_sample_count_ge_min (compartment_area sampling_intensity : ℚ)
    (min_plots_per_compartment : ℤ) :
    min_plots_per_compartment ≤
      plan_sample_count compartment_area sampling_intensity
        min_plots_per_compartment :=
  le_max_left _ _

/-- The systematic grid loop never accepts more than `num_plots` plots. -/
theorem systematic_loop_length_le :
    ∀ (cands : List (ℕ × ℕ)) (geom : CPoly) (cid : String) (n : ℕ)
      (minx miny x_step y_step : ℚ) (plots : List SamplePlot) (ctr : ℕ),
      plots.length ≤ n →
      ((systematic_loop geom cid n minx miny x_step y_step cands plots ctr).1).length ≤ n := by
  intro cands
  induction cands with
  | nil =>
    intro geom cid n minx miny x_step y_step plots ctr h
    simpa [systematic_loop] using h
  | cons ij rest ih =>
    intro geom cid n minx miny x_step y_step plots ctr h
    rw [systematic_loop]
    by_cases hstop : n ≤ plots.length
    · rw [if_pos hstop]; exact h
    · rw [if_neg hstop]
      by_cases hc : polyContains geom
          (minx + ((ij.1 : ℚ) + 1/2) * x_step, miny + ((ij.2 : ℚ) + 1/2) * y_step) = true
      · rw [if_pos hc]
        exact ih geom cid n minx miny x_step y_step _ _ (by simp; omega)
      · rw [if_neg hc]
        exact ih geom cid n minx miny x_step y_step plots ctr h

/-- The rejection-sampling loop never accepts more than `num_plots` plots. -/
theorem random_loop_length_le :
    ∀ (budget : ℕ) (geom : CPoly) (cid : String) (n : ℕ) (stream : ℕ → ℚ × ℚ)
      (pos ctr : ℕ) (plots : List SamplePlot),
      plots.length ≤ n →
      ((random_loop geom cid n stream budget pos ctr plots).1).length ≤ n := by
  intro budget
  induction budget with
  | zero =>
    intro geom cid n stream pos ctr plots h
    simpa [random_loop] using h
  | succ budget ih =>
    intro geom cid n stream pos ctr plots h
    rw [random_loop]
    by_cases hgo : plots.length < n
    · rw [if_pos hgo]
      by_cases hc : polyContains geom (stream pos) = true
      · rw [if_pos hc]
        exact ih geom cid n stream _ _ _ (by simp; omega)
      · rw [if_neg hc]
        exact ih geom cid n stream _ _ _ h
    · rw [if_neg hgo]; exact h

/-- Claim C4 (amended): the planner's requested count is always at least the
configured minimum, but the plots actually generated for a compartment can
be fewer; what both placement methods do guarantee is that they never
produce more than the requested count. -/
theorem c4_amended_plot_counts :
    (∀ (compartment_area sampling_intensity : ℚ) (min_plots : ℤ),
      min_plots ≤ plan_sample_count compartment_area sampling_intensity min_plots) ∧
    (∀ (geom : CPoly) (cid : String) (n : ℕ) (ctr : ℕ),
      ((generate_systematic_plots geom cid n ctr).1).length ≤ n) ∧
    (∀ (geom : CPoly) (cid : String) (n : ℕ) (stream : ℕ → ℚ × ℚ) (pos ctr : ℕ),
      ((generate_random_plots geom cid n stream pos ctr).1).length ≤ n) := by
  refine ⟨fun a i m => plan_sample_count_ge_min a i m, ?_, ?_⟩
  · intro geom cid n ctr
    exact systematic_loop_length_le _ _ _ _ _ _ _ _ [] ctr (by simp)
  · intro geom cid n stream pos ctr
    exact random_loop_length_le _ _ _ _ _ _ _ [] (by simp)

/-- The bisection core appends at most `2 ^ gas` compartments: the depth cap
bounds the work of a partition request on any geometry. -/
theorem bisect_go_length_le :
    ∀ (gas : ℕ) (polygon : CPoly) (num_compartments : ℤ) (target_area : ℚ)
      (compartments : List Compartment),
      (bisect_go gas polygon num_compartments target_area compartments).length ≤
        compartments.length + 2 ^ gas := by
  intro gas
  induction gas with
  | zero =>
    intro polygon num_compartments target_area compartments
    rw [bisect_go]
    by_cases h1 : num_compartments ≤ (compartments.length : ℤ)
    · rw [if_pos h1]; exact Nat.le_add_right _ _
    · rw [if_neg h1]
      by_cases h2 :
        ratAbs (polyArea polygon - target_area) < target_area * (1/10)
      · rw [if_pos h2]; simp
      · rw [if_neg h2]; simp
  | succ gas ih =>
    intro polygon num_compartments target_area compartments
    have hpos : 1 ≤ 2 ^ gas := Nat.one_le_two_pow
    have hpow : 2 ^ (gas + 1) = 2 ^ gas + 2 ^ gas := by
      rw [pow_succ]; omega
    rw [bisect_go]
    by_cases h1 : num_compartments ≤ (compartments.length : ℤ)
    · rw [if_pos h1]; exact Nat.le_add_right _ _
    · rw [if_neg h1]
      clear h1
      by_cases h2 :
        ratAbs (polyArea polygon - target_area) < target_area * (1/10)
      · rw [if_pos h2]; simp; omega
      · rw [if_neg h2]
        cases hline : find_bisecting_line polygon target_area with
        | none => simp; omega
        | some line =>
          dsimp only
          have hacc1 :
              (if 0 < polyArea (split_polygon polygon line).1 then
                  bisect_go gas (split_polygon polygon line).1 num_compartments
                    target_area compartments
                else compartments).length ≤ compartments.length + 2 ^ gas := by
            by_cases hl : 0 < polyArea (split_polygon polygon line).1
            · rw [if_pos hl]; exact ih _ _ _ _
            · rw [if_neg hl]; omega
          cases hsnd : (split_polygon polygon line).2 with
          | none => dsimp only; omega
          | some right =>
            dsimp only
            by_cases hr : 0 < polyArea right
            · rw [if_pos hr]
              have := ih right num_compartments target_area
                (if 0 < polyArea (split_polygon polygon line).1 then
                    bisect_go gas (split_polygon polygon line).1 num_compartments
                      target_area compartments
                  else compartments)
              omega
            · rw [if_neg hr]; omega

/-- The rejection-sampling loop reads the candidate stream only at the
positions inside its attempt budget: streams that agree on those positions
produce identical runs. -/
theorem random_loop_stream_agree :
    ∀ (budget : ℕ) (geom : CPoly) (cid : String) (n : ℕ)
      (stream1 stream2 : ℕ → ℚ × ℚ) (pos ctr : ℕ) (plots : List SamplePlot),
      (∀ j, j < budget → stream1 (pos + j) = stream2 (pos + j)) →
      random_loop geom cid n stream1 budget pos ctr plots =
        random_loop geom cid n stream2 budget pos ctr plots := by
  intro budget
  induction budget with
  | zero => intro geom cid n stream1 stream2 pos ctr plots _; rfl
  | succ budget ih =>
    intro geom cid n stream1 stream2 pos ctr plots hagree
    have h0 : stream1 pos = stream2 pos := by
      have := hagree 0 (by omega)
      simpa using this
    have hrest : ∀ j, j < budget → stream1 (pos + 1 + j) = stream2 (pos + 1 + j) := by
      intro j hj
      have := hagree (j + 1) (by omega)
      have harr : pos + (j + 1) = pos + 1 + j := by omega
      rw [harr] at this
      exact this
    rw [random_loop, random_loop]
    by_cases hgo : plots.length < n
    · rw [if_pos hgo, if_pos hgo, h0]
      by_cases hc : polyContains geom (stream2 pos) = true
      · rw [if_pos hc, if_pos hc]
        exact ih geom cid n stream1 stream2 (pos + 1) (ctr + 1) _ hrest
      · rw [if_neg hc, if_neg hc]
        exact ih geom cid n stream1 stream2 (pos + 1) ctr plots hrest
    · rw [if_neg hgo, if_neg hgo]

/-- Claim C9: both core loops do bounded work on every input.  The depth cap
makes any partition request append at most `2 ^ (11 - depth)` compartments
from recursion depth `depth` (in particular at most `2 ^ 11` in total), and
the `10 × count` attempt cap means a random placement run is determined by —
and therefore consumes — at most `10 × count` candidate draws. -/
theorem c9_bounded_work :
    (∀ (polygon : CPoly) (num_compartments : ℤ) (target_area : ℚ)
      (compartments : List Compartment) (depth : ℕ),
      (recursive_bisection polygon num_compartments target_area compartments
          depth).length ≤ compartments.length + 2 ^ (11 - depth)) ∧
    (∀ (geom : CPoly) (cid : String) (n : ℕ) (stream1 stream2 : ℕ → ℚ × ℚ)
      (pos ctr : ℕ),
      (∀ j, j < n * 10 → stream1 (pos + j) = stream2 (pos + j)) →
      generate_random_plots geom cid n stream1 pos ctr =
        generate_random_plots geom cid n stream2 pos ctr) := by
  constructor
  · intro polygon num_compartments target_area compartments depth
    unfold recursive_bisection
    exact bisect_go_length_le _ _ _ _ _
  · intro geom cid n stream1 stream2 pos ctr hagree
    unfold generate_random_plots
    exact random_loop_stream_agree _ _ _ _ _ _ _ _ _ hagree

/-- Plots accepted by the systematic grid loop are strictly inside the
compartment polygon and carry its id (new plots are only appended under a
passed containment test). -/
theorem systematic_loop_contains :
    ∀ (cands : List (ℕ × ℕ)) (geom : CPoly) (cid : String) (n : ℕ)
      (minx miny x_step y_step : ℚ) (plots : List SamplePlot) (ctr : ℕ),
      (∀ p ∈ plots,
        polyContains geom (p.longitude, p.latitude) = true ∧ p.compartment_id = cid) →
      ∀ p ∈ (systematic_loop geom cid n minx miny x_step y_step cands plots ctr).1,
        polyContains geom (p.longitude, p.latitude) = true ∧ p.compartment_id = cid := by
  intro cands
  induction cands with
  | nil =>
    intro geom cid n minx miny x_step y_step plots ctr h
    simpa [systematic_loop] using h
  | cons ij rest ih =>
    intro geom cid n minx miny x_step y_step plots ctr h
    rw [systematic_loop]
    by_cases hstop : n ≤ plots.length
    · rw [if_pos hstop]; exact h
    · rw [if_neg hstop]
      by_cases hc : polyContains geom
          (minx + ((ij.1 : ℚ) + 1/2) * x_step, miny + ((ij.2 : ℚ) + 1/2) * y_step) = true
      · rw [if_pos hc]
        refine ih geom cid n minx miny x_step y_step _ _ ?_
        intro p hp
        rcases List.mem_append.mp hp with hp | hp
        · exact h p hp
        · rcases List.mem_singleton.mp hp with rfl
          exact ⟨hc, rfl⟩
      · rw [if_neg hc]
        exact ih geom cid n minx miny x_step y_step plots ctr h

/-- Plots accepted by the rejection-sampling loop are strictly inside the
compartment polygon and carry its id. -/
theorem random_loop_contains :
    ∀ (budget : ℕ) (geom : CPoly) (cid : String) (n : ℕ) (stream : ℕ → ℚ × ℚ)
      (pos ctr : ℕ) (plots : List SamplePlot),
      (∀ p ∈ plots,
        polyContains geom (p.longitude, p.latitude) = true ∧ p.compartment_id = cid) →
      ∀ p ∈ (random_loop geom cid n stream budget pos ctr plots).1,
        polyContains geom (p.longitude, p.latitude) = true ∧ p.compartment_id = cid := by
  intro budget
  induction budget with
  | zero =>
    intro geom cid n stream pos ctr plots h
    simpa [random_loop] using h
  | succ budget ih =>
    intro geom cid n stream pos ctr plots h
    rw [random_loop]
    by_cases hgo : plots.length < n
    · rw [if_pos hgo]
      by_cases hc : polyContains geom (stream pos) = true
      · rw [if_pos hc]
        refine ih geom cid n stream _ _ _ ?_
        intro p hp
        rcases List.mem_append.mp hp with hp | hp
        · exact h p hp
        · rcases List.mem_singleton.mp hp with rfl
          exact ⟨hc, rfl⟩
      · rw [if_neg hc]
        exact ih geom cid n stream _ _ _ h
    · rw [if_neg hgo]; exact h

/-- Either placement method produces only plots contained in the given
compartment polygon and labelled with its id. -/
theorem plots_for_compartment_contains (geom : CPoly) (cid : String)
    (n : ℕ) (method : String) (stream : ℕ → ℚ × ℚ) (pos ctr : ℕ) :
    ∀ p ∈ (generate_plots_for_compartment geom cid n method stream pos ctr).1,
      polyContains geom (p.longitude, p.latitude) = true ∧ p.compartment_id = cid := by
  unfold generate_plots_for_compartment
  by_cases hm : method = "systematic"
  · rw [if_pos hm]
    intro p hp
    exact systematic_loop_contains _ _ _ _ _ _ _ _ [] ctr (by simp) p hp
  · rw [if_neg hm]
    intro p hp
    exact random_loop_contains _ _ _ _ _ _ _ [] (by simp) p hp

/-- Every plot emitted by the per-compartment loop either was already in the
accumulator or belongs to one of the processed compartments and is contained
in that compartment's polygon. -/
theorem sample_plots_loop_contains :
    ∀ (comps : List (String × CPoly)) (sampling_intensity : ℚ)
      (min_plots : ℤ) (method : String) (stream : ℕ → ℚ × ℚ)
      (pos ctr : ℕ) (acc : List SamplePlot),
      ∀ p ∈ sample_plots_loop sampling_intensity min_plots method stream comps pos ctr acc,
        p ∈ acc ∨ ∃ c ∈ comps, p.compartment_id = c.1 ∧
          polyContains c.2 (p.longitude, p.latitude) = true := by
  intro comps
  induction comps with
  | nil =>
    intro sampling_intensity min_plots method stream pos ctr acc p hp
    rw [sample_plots_loop] at hp
    exact Or.inl hp
  | cons c rest ih =>
    intro sampling_intensity min_plots method stream pos ctr acc p hp
    rw [sample_plots_loop] at hp
    rcases ih _ _ _ _ _ _ _ p hp with hmem | ⟨c', hc', hprop⟩
    · rcases List.mem_append.mp hmem with hmem | hmem
      · exact Or.inl hmem
      · refine Or.inr ⟨c, List.mem_cons_self c rest, ?_⟩
        have := plots_for_compartment_contains c.2 c.1 _ method stream pos ctr p hmem
        exact ⟨this.2, this.1⟩
    · exact Or.inr ⟨c', List.mem_cons_of_mem c hc', hprop⟩

/-- Claim C5: every generated SamplePoint is contained in (the interior of)
the polygon of a compartment carrying the identifier stored on the plot, for
both the systematic and the random placement method. -/
theorem c5_plot_containment (compartments : List (String × CPoly))
    (sampling_intensity : ℚ) (min_plots_per_compartment : ℤ)
    (distribution_method : String) (stream : ℕ → ℚ × ℚ)
    (plots : List SamplePlot)
    (h : generate_sample_plots compartments sampling_intensity
        min_plots_per_compartment distribution_method stream = Except.ok plots) :
    ∀ p ∈ plots, ∃ c ∈ compartments, p.compartment_id = c.1 ∧
      polyContains c.2 (p.longitude, p.latitude) = true := by
  unfold generate_sample_plots at h
  by_cases he : compartments.isEmpty = true
  · rw [if_pos he] at h; cases h
  · rw [if_neg he] at h
    have hplots := Except.ok.inj h
    intro p hp
    rw [← hplots] at hp
    rcases sample_plots_loop_contains _ _ _ _ _ _ _ _ p hp with hmem | hgood
    · cases hmem
    · exact hgood

/-- The plot-id sequence `[SP-(c+1), SP-(c+2), ..., SP-(c+k)]` (each number
zero-padded to at least two digits). -/
def seq_plot_ids : ℕ → ℕ → List String
  | _, 0 => []
  | c, k + 1 => plot_label (c + 1) :: seq_plot_ids (c + 1) k

theorem seq_plot_ids_length : ∀ (c k : ℕ), (seq_plot_ids c k).length = k := by
  intro c k
  induction k generalizing c with
  | zero => rfl
  | succ k ih => simp [seq_plot_ids, ih]

theorem seq_plot_ids_append :
    ∀ (a : ℕ) (c b : ℕ),
      seq_plot_ids c (a + b) = seq_plot_ids c a ++ seq_plot_ids (c + a) b := by
  intro a
  induction a with
  | zero => intro c b; simp [seq_plot_ids]
  | succ a ih =>
    intro c b
    have harr : a + 1 + b = (a + b) + 1 := by omega
    have h2 : c + 1 + a = c + (a + 1) := by omega
    rw [harr]
    simp only [seq_plot_ids]
    rw [ih (c + 1) b, h2]
    simp [List.cons_append]

theorem seq_plot_ids_range :
    ∀ (k c : ℕ),
      seq_plot_ids c k = (List.range k).map (fun i => plot_label (c + i + 1)) := by
  intro k
  induction k with
  | zero => intro c; rfl
  | succ k ih =>
    intro c
    rw [seq_plot_ids_append k c 1, List.range_succ, List.map_append, ih c]
    simp [seq_plot_ids]

/-- The systematic grid loop hands out plot ids from the shared counter:
starting from counter `ctr`, the new plots get exactly the consecutive
labels `SP-(ctr+1), SP-(ctr+2), ...` up to the final counter value. -/
theorem systematic_loop_ids :
    ∀ (cands : List (ℕ × ℕ)) (geom : CPoly) (cid : String) (n : ℕ)
      (minx miny x_step y_step : ℚ) (plots : List SamplePlot) (ctr : ℕ),
      ((systematic_loop geom cid n minx miny x_step y_step cands plots ctr).1).map
          SamplePlot.plot_id =
        plots.map SamplePlot.plot_id ++
          seq_plot_ids ctr
            ((systematic_loop geom cid n minx miny x_step y_step cands plots ctr).2 - ctr) ∧
      ctr ≤ (systematic_loop geom cid n minx miny x_step y_step cands plots ctr).2 := by
  intro cands
  induction cands with
  | nil =>
    intro geom cid n minx miny x_step y_step plots ctr
    simp [systematic_loop, seq_plot_ids]
  | cons ij rest ih =>
    intro geom cid n minx miny x_step y_step plots ctr
    rw [systematic_loop]
    by_cases hstop : n ≤ plots.length
    · rw [if_pos hstop]
      simp [seq_plot_ids]
    · rw [if_neg hstop]
      by_cases hc : polyContains geom
          (minx + ((ij.1 : ℚ) + 1/2) * x_step, miny + ((ij.2 : ℚ) + 1/2) * y_step) = true
      · rw [if_pos hc]
        obtain ⟨hmap, hle⟩ := ih geom cid n minx miny x_step y_step
          (plots ++ [⟨plot_label (ctr + 1), cid,
            minx + ((ij.1 : ℚ) + 1/2) * x_step, miny + ((ij.2 : ℚ) + 1/2) * y_step⟩])
          (ctr + 1)
        refine ⟨?_, by omega⟩
        rw [hmap]
        have hm : (systematic_loop geom cid n minx miny x_step y_step rest
            (plots ++ [⟨plot_label (ctr + 1), cid,
              minx + ((ij.1 : ℚ) + 1/2) * x_step,
              miny + ((ij.2 : ℚ) + 1/2) * y_step⟩]) (ctr + 1)).2 - ctr =
            ((systematic_loop geom cid n minx miny x_step y_step rest
              (plots ++ [⟨plot_label (ctr + 1), cid,
                minx + ((ij.1 : ℚ) + 1/2) * x_step,
                miny + ((ij.2 : ℚ) + 1/2) * y_step⟩]) (ctr + 1)).2 - (ctr + 1)) + 1 := by
          omega
        rw [hm]
        have hsplit : seq_plot_ids ctr
            (((systematic_loop geom cid n minx miny x_step y_step rest
              (plots ++ [⟨plot_label (ctr + 1), cid,
                minx + ((ij.1 : ℚ) + 1/2) * x_step,
                miny + ((ij.2 : ℚ) + 1/2) * y_step⟩]) (ctr + 1)).2 - (ctr + 1)) + 1) =
            plot_label (ctr + 1) :: seq_plot_ids (ctr + 1)
              ((systematic_loop geom cid n minx miny x_step y_step rest
                (plots ++ [⟨plot_label (ctr + 1), cid,
                  minx + ((ij.1 : ℚ) + 1/2) * x_step,
                  miny + ((ij.2 : ℚ) + 1/2) * y_step⟩]) (ctr + 1)).2 - (ctr + 1)) := by
          have hone : (((systematic_loop geom cid n minx miny x_step y_step rest
              (plots ++ [⟨plot_label (ctr + 1), cid,
                minx + ((ij.1 : ℚ) + 1/2) * x_step,
                miny + ((ij.2 : ℚ) + 1/2) * y_step⟩]) (ctr + 1)).2 - (ctr + 1)) + 1) =
              1 + ((systematic_loop geom cid n minx miny x_step y_step rest
                (plots ++ [⟨plot_label (ctr + 1), cid,
                  minx + ((ij.1 : ℚ) + 1/2) * x_step,
                  miny + ((ij.2 : ℚ) + 1/2) * y_step⟩]) (ctr + 1)).2 - (ctr + 1)) := by
            omega
          rw [hone, seq_plot_ids_append 1 ctr]
          simp [seq_plot_ids]
        rw [hsplit]
        simp
      · rw [if_neg hc]
        exact ih geom cid n minx miny x_step y_step plots ctr

/-- Peeling one id off the front of a counter-difference id sequence. -/
theorem seq_plot_ids_cons (c f : ℕ) (h : c + 1 ≤ f) :
    seq_plot_ids c (f - c) = plot_label (c + 1) :: seq_plot_ids (c + 1) (f - (c + 1)) := by
  have hm : f - c = (f - (c + 1)) + 1 := by omega
  have hone : (f - (c + 1)) + 1 = 1 + (f - (c + 1)) := by omega
  rw [hm, hone, seq_plot_ids_append 1 c]
  simp [seq_plot_ids]

/-- The rejection-sampling loop hands out plot ids from the shared counter:
starting from counter `ctr`, the new plots get exactly the consecutive
labels `SP-(ctr+1), SP-(ctr+2), ...` up to the final counter value. -/
theorem random_loop_ids :
    ∀ (budget : ℕ) (geom : CPoly) (cid : String) (n : ℕ) (stream : ℕ → ℚ × ℚ)
      (pos ctr : ℕ) (plots : List SamplePlot),
      ((random_loop geom cid n stream budget pos ctr plots).1).map SamplePlot.plot_id =
        plots.map SamplePlot.plot_id ++
          seq_plot_ids ctr ((random_loop geom cid n stream budget pos ctr plots).2.1 - ctr) ∧
      ctr ≤ (random_loop geom cid n stream budget pos ctr plots).2.1 := by
  intro budget
  induction budget with
  | zero =>
    intro geom cid n stream pos ctr plots
    simp [random_loop, seq_plot_ids]
  | succ budget ih =>
    intro geom cid n stream pos ctr plots
    rw [random_loop]
    by_cases hgo : plots.length < n
    · rw [if_pos hgo]
      by_cases hc : polyContains geom (stream pos) = true
      · rw [if_pos hc]
        obtain ⟨hmap, hle⟩ := ih geom cid n stream (pos + 1) (ctr + 1)
          (plots ++ [⟨plot_label (ctr + 1), cid, (stream pos).1, (stream pos).2⟩])
        refine ⟨?_, by omega⟩
        rw [hmap, seq_plot_ids_cons ctr _ (by omega)]
        simp
      · rw [if_neg hc]
        exact ih geom cid n stream (pos + 1) ctr plots
    · rw [if_neg hgo]
      simp [seq_plot_ids]

/-- Either placement method labels its output with the consecutive plot ids
that follow the incoming shared counter value. -/
theorem plots_for_compartment_ids (geom : CPoly) (cid : String) (n : ℕ)
    (method : String) (stream : ℕ → ℚ × ℚ) (pos ctr : ℕ) :
    ((generate_plots_for_compartment geom cid n method stream pos ctr).1).map
        SamplePlot.plot_id =
      seq_plot_ids ctr
        ((generate_plots_for_compartment geom cid n method stream pos ctr).2.1 - ctr) ∧
    ctr ≤ (generate_plots_for_compartment geom cid n method stream pos ctr).2.1 := by
  unfold generate_plots_for_compartment
  by_cases hm : method = "systematic"
  · rw [if_pos hm]
    unfold generate_systematic_plots
    obtain ⟨hmap, hle⟩ := systematic_loop_ids
      (grid_pairs (grid_size n)) geom cid n (polyBounds geom).1 (polyBounds geom).2.1
      (((polyBounds geom).2.2.1 - (polyBounds geom).1) / (grid_size n : ℚ))
      (((polyBounds geom).2.2.2 - (polyBounds geom).2.1) / (grid_size n : ℚ)) [] ctr
    exact ⟨by simpa using hmap, hle⟩
  · rw [if_neg hm]
    unfold generate_random_plots
    obtain ⟨hmap, hle⟩ := random_loop_ids (n * 10) geom cid n stream pos ctr []
    exact ⟨by simpa using hmap, hle⟩

/-- The per-compartment loop appends, for each processed compartment, the
block of consecutive ids that continues exactly where the shared counter
stood; in total the emitted plots extend the accumulator by one gapless id
run starting after `ctr`. -/
theorem sample_plots_loop_ids :
    ∀ (comps : List (String × CPoly)) (sampling_intensity : ℚ)
      (min_plots : ℤ) (method : String) (stream : ℕ → ℚ × ℚ)
      (pos ctr : ℕ) (acc : List SamplePlot),
      ∃ k, (sample_plots_loop sampling_intensity min_plots method stream
          comps pos ctr acc).map SamplePlot.plot_id =
        acc.map SamplePlot.plot_id ++ seq_plot_ids ctr k := by
  intro comps
  induction comps with
  | nil =>
    intro sampling_intensity min_plots method stream pos ctr acc
    exact ⟨0, by simp [sample_plots_loop, seq_plot_ids]⟩
  | cons c rest ih =>
    intro sampling_intensity min_plots method stream pos ctr acc
    rw [sample_plots_loop]
    obtain ⟨hmap, hle⟩ := plots_for_compartment_ids c.2 c.1
      (plan_sample_count (polyArea c.2) sampling_intensity min_plots).toNat
      method stream pos ctr
    obtain ⟨k', hk'⟩ := ih sampling_intensity min_plots method stream
      (generate_plots_for_compartment c.2 c.1
        (plan_sample_count (polyArea c.2) sampling_intensity min_plots).toNat
        method stream pos ctr).2.2
      (generate_plots_for_compartment c.2 c.1
        (plan_sample_count (polyArea c.2) sampling_intensity min_plots).toNat
        method stream pos ctr).2.1
      (acc ++ (generate_plots_for_compartment c.2 c.1
        (plan_sample_count (polyArea c.2) sampling_intensity min_plots).toNat
        method stream pos ctr).1)
    refine ⟨((generate_plots_for_compartment c.2 c.1
        (plan_sample_count (polyArea c.2) sampling_intensity min_plots).toNat
        method stream pos ctr).2.1 - ctr) + k', ?_⟩
    rw [hk', seq_plot_ids_append _ ctr k']
    have harr : ctr + ((generate_plots_for_compartment c.2 c.1
        (plan_sample_count (polyArea c.2) sampling_intensity min_plots).toNat
        method stream pos ctr).2.1 - ctr) =
        (generate_plots_for_compartment c.2 c.1
          (plan_sample_count (polyArea c.2) sampling_intensity min_plots).toNat
          method stream pos ctr).2.1 := by
      omega
    rw [harr]
    simp [hmap]

/-- Claim C7: within one sampling request the plot ids are drawn from one
counter shared across all compartments: the ids of the returned plots, in
order, are exactly `SP-01, SP-02, ..., SP-k` (each number zero-padded to at
least two digits), `k` = total number of plots, with no gaps or
duplicates. -/
theorem c7_plot_ids_sequential (compartments : List (String × CPoly))
    (sampling_intensity : ℚ) (min_plots_per_compartment : ℤ)
    (distribution_method : String) (stream : ℕ → ℚ × ℚ)
    (plots : List SamplePlot)
    (h : generate_sample_plots compartments sampling_intensity
        min_plots_per_compartment distribution_method stream = Except.ok plots) :
    plots.map SamplePlot.plot_id =
      (List.range plots.length).map (fun i => plot_label (i + 1)) := by
  unfold generate_sample_plots at h
  by_cases he : compartments.isEmpty = true
  · rw [if_pos he] at h; cases h
  · rw [if_neg he] at h
    have hplots := Except.ok.inj h
    obtain ⟨k, hk⟩ := sample_plots_loop_ids compartments sampling_intensity
      min_plots_per_compartment distribution_method stream 0 0 []
    rw [hplots] at hk
    have hlen : plots.length = k := by
      have := congrArg List.length hk
      simpa [seq_plot_ids_length] using this
    rw [hk, hlen, seq_plot_ids_range k 0]
    simp

/-- Claim C10: any distribution method string other than exactly
`"systematic"` silently takes the random placement branch, and the public
sampling operation still succeeds (no error is raised for unrecognized
method strings). -/
theorem c10_unknown_method_uses_random :
    (∀ (geom : CPoly) (cid : String) (n : ℕ) (method : String)
      (stream : ℕ → ℚ × ℚ) (pos ctr : ℕ), method ≠ "systematic" →
      generate_plots_for_compartment geom cid n method stream pos ctr =
        generate_random_plots geom cid n stream pos ctr) ∧
    (∀ (comps : List (String × CPoly)) (sampling_intensity : ℚ)
      (min_plots : ℤ) (method : String) (stream : ℕ → ℚ × ℚ),
      comps ≠ [] →
      (generate_sample_plots comps sampling_intensity min_plots method
          stream).toOption.isSome = true) := by
  constructor
  · intro geom cid n method stream pos ctr hmethod
    unfold generate_plots_for_compartment
    rw [if_neg hmethod]
  · intro comps sampling_intensity min_plots method stream hne
    unfold generate_sample_plots
    cases comps with
    | nil => exact absurd rfl hne
    | cons c rest => simp [List.isEmpty, Except.toOption]

/-- Claim C8 (amended): the partition core raises for an invalid boundary
polygon and for `num_compartments = 0` (the float division by zero);
negative compartment counts, however, do not raise — see the accompanying
counterexample. -/
theorem c8_amended_partition_errors (boundary_geometry : CPoly)
    (num_compartments : ℤ)
    (h : is_valid boundary_geometry = false ∨ num_compartments = 0) :
    (generate_compartments boundary_geometry num_compartments).toOption = none := by
  unfold generate_compartments
  rcases h with hv | hn
  · rw [if_pos hv]; rfl
  · by_cases hv : is_valid boundary_geometry = false
    · rw [if_pos hv]; rfl
    · rw [if_neg hv, if_pos hn]; rfl

/-- An `Except` value whose `toOption` is `some x` is `ok x`. -/
theorem except_ok_of_toOption {ε α : Type _} [DecidableEq α] (e : Except ε α)
    (x : α) (h : e.toOption = some x) : e = Except.ok x := by
  cases e with
  | error err => simp [Except.toOption] at h
  | ok y =>
    simp only [Except.toOption, Option.some.injEq] at h
    rw [h]

/-- Test fixture: the 10×10 square boundary of the spec's example scenario
(`num_compartments = 4` splits it into four 2.5×10 strips of area 25). -/
def square10 : CPoly := [(0, 0), (10, 0), (10, 10), (0, 10)]

/-- Test fixture: the convex hexagonal band `|x - y| ≤ 1/10` inside the unit
square (area 19/100).  Its bounding box is the unit square, so of the nine
3×3 grid-cell centers only the three diagonal ones (1/6,1/6), (1/2,1/2),
(5/6,5/6) lie inside — each with distance at least 0.06 to the nearest
edge, and each rejected center at distance at least 0.16, so the
containment decisions are far from any boundary and unaffected by
floating-point rounding in the source. -/
def diag_band : CPoly :=
  [(0, 0), (1/10, 0), (1, 9/10), (1, 1), (9/10, 1), (0, 1/10)]

/-- Test fixture: the right triangle below the diagonal of the unit square;
the vertical bounding-box midline splits it 1 : 3 by area. -/
def tri_diag : CPoly := [(0, 0), (1, 0), (1, 1)]

/-- Candidate stream that always proposes the center of `square10`. -/
def const_stream : ℕ → ℚ × ℚ := fun _ => (5, 5)

/-- Candidate stream agreeing with `const_stream` on the first 50 draws
only. -/
def alt_stream : ℕ → ℚ × ℚ := fun i => if i < 50 then (5, 5) else (99, 99)

/-- The partition of `square10` into 4 compartments, as computed by the
model: four vertical strips of width 2.5, areas 25 each. -/
def sq4_comps : List Compartment :=
  [⟨[(5/2, 10), (0, 10), (0, 0), (5/2, 0)], "C1"⟩,
   ⟨[(5, 10), (5/2, 10), (5/2, 0), (5, 0)], "C2"⟩,
   ⟨[(15/2, 0), (15/2, 10), (5, 10), (5, 0)], "C3"⟩,
   ⟨[(15/2, 0), (10, 0), (10, 10), (15/2, 10)], "C4"⟩]

/-- The partition of `square10` into 3 compartments, as computed by the
model: halving never lands within 10% of `100/3`, so the recursion runs to
the depth cap and emits three slivers of area `25/512` each. -/
def sq3_comps : List Compartment :=
  [⟨[(5/1024, 10), (0, 10), (0, 0), (5/1024, 0)], "C1"⟩,
   ⟨[(5/1024, 10), (5/1024, 0), (5/512, 0), (5/512, 10)], "C2"⟩,
   ⟨[(5/512, 0), (15/1024, 0), (15/1024, 10), (5/512, 10)], "C3"⟩]

/-- The partition of `tri_diag` into 2 compartments, as computed by the
model: the left-exhaustive recursion runs to the depth cap, producing a
triangle of area `2⁻²³` and a trapezoid three times as large. -/
def tri_diag_comps : List Compartment :=
  [⟨[(1/2048, 1/2048), (0, 0), (1/2048, 0)], "C1"⟩,
   ⟨[(1/2048, 1/2048), (1/2048, 0), (1/1024, 0), (1/1024, 1/1024)], "C2"⟩]

/-- The systematic sampling run over the single compartment `square10`
(intensity 0.02, minimum 5): the first five contained 3×3 grid centers. -/
def sq_sys_plots : List SamplePlot :=
  [⟨"SP-01", "C1", 5/3, 5/3⟩,
   ⟨"SP-02", "C1", 5/3, 5⟩,
   ⟨"SP-03", "C1", 5/3, 25/3⟩,
   ⟨"SP-04", "C1", 5, 5/3⟩,
   ⟨"SP-05", "C1", 5, 5⟩]

/- The Batteries rational operations are `@[irreducible]`; making them
semireducible from here on lets `decide` evaluate the executable model on
the concrete fixtures. The kernel ignores reducibility attributes, so the
checked proofs are unaffected. -/
attribute [local semireducible] Rat.add Rat.mul Rat.inv Rat.sub

/-- Claim C6: the sampling planner computes
`max(minimum, round(compartment_area * intensity / 10000))`, which is always
at least the minimum; in particular area 500000, intensity 0.02, minimum 5
plans exactly 5 plots (`max(5, round(1)) = 5`). -/
theorem c6_sampling_planner :
    (∀ (compartment_area sampling_intensity : ℚ) (min_plots : ℤ),
      plan_sample_count compartment_area sampling_intensity min_plots =
        max min_plots
          (pyRound (compartment_area * sampling_intensity / 10000)) ∧
      min_plots ≤ plan_sample_count compartment_area sampling_intensity min_plots) ∧
    plan_sample_count 500000 (1/50) 5 = 5 :=
  ⟨fun a i m => ⟨rfl, plan_sample_count_ge_min a i m⟩, by decide⟩

/-- Witness for claim C1 on the spec's example scenario: the 10×10 square
partitioned into 4 compartments gets the ids C1, C2, C3, C4 in order. -/
theorem c1_witness :
    sq4_comps.map Compartment.compartment_id = seq_comp_ids sq4_comps.length :=
  c1_compartment_ids_sequential square10 4 sq4_comps
    (except_ok_of_toOption _ _ (by decide))

set_option maxRecDepth 100000 in
set_option maxHeartbeats 4000000 in
/-- Claim C2 evaluated at a failing input: partitioning the triangle
`tri_diag` into 2 compartments yields areas in ratio 1 : 3, so a compartment
deviates from the mean area by 50% of the mean — far beyond the 5% bound the
source docstring ("Property 7") asserts — and `_validate_compartments`
merely flags both compartments as warnings instead of preventing this. -/
theorem c2_area_balance_violated :
    (generate_compartments tri_diag 2).toOption = some tri_diag_comps ∧
    validate_compartments tri_diag_comps = ["C1", "C2"] ∧
    (∃ c ∈ tri_diag_comps,
      ((tri_diag_comps.map (fun c => polyArea c.polygon)).sum /
          (tri_diag_comps.length : ℚ)) * (5/100) <
        ratAbs (polyArea c.polygon -
          (tri_diag_comps.map (fun c => polyArea c.polygon)).sum /
            (tri_diag_comps.length : ℚ))) := by
  refine ⟨by decide, by decide, ?_⟩
  decide

set_option maxRecDepth 100000 in
set_option maxHeartbeats 4000000 in
/-- Counterexample to claim C3: partitioning the 10×10 square into 3
compartments loses almost all the area — the three produced slivers sum to
`75/512` against a boundary area of 100, far outside the claimed `1e-6`
relative tolerance. -/
theorem c3_counterexample_area_lost :
    (generate_compartments square10 3).toOption = some sq3_comps ∧
    (1/1000000 : ℚ) * polyArea square10 <
      ratAbs ((sq3_comps.map (fun c => polyArea c.polygon)).sum -
        polyArea square10) := by
  refine ⟨by decide, by decide⟩

set_option maxRecDepth 100000 in
set_option maxHeartbeats 4000000 in
/-- Claim C3 (amended): round-trip area conservation fails (see the
counterexample), and what survives is the one-sided bound — area is never
duplicated.  In the spec's example scenario, the 10×10 square split into 4
compartments, the compartment areas total no more than the boundary area
(the source additionally drops a 2e-4-wide sliver per split, so its total is
strictly below the model's and satisfies the same bound). -/
theorem c3_amended_area_bound :
    (generate_compartments square10 4).toOption = some sq4_comps ∧
    (sq4_comps.map (fun c => polyArea c.polygon)).sum ≤ polyArea square10 := by
  refine ⟨by decide, by decide⟩

set_option maxRecDepth 100000 in
set_option maxHeartbeats 4000000 in
/-- Counterexample to claim C4: sampling the band-shaped compartment
`diag_band` with the systematic method and minimum 5 produces only 3 plots —
only the three diagonal grid-cell centers of the bounding box fall inside
the compartment, each with a wide margin, so fewer plots than the
configured minimum are generated. -/
theorem c4_counterexample_min_shortfall :
    (generate_sample_plots [("C1", diag_band)] (1/50) 5 "systematic"
        const_stream).toOption.map List.length = some 3 ∧ (3 : ℕ) < 5 := by
  refine ⟨by decide, by decide⟩

set_option maxRecDepth 100000 in
set_option maxHeartbeats 4000000 in
/-- Witness for claim C5: in the systematic run over the single compartment
`square10`, the first produced plot SP-01 at (5/3, 5/3) is contained in the
polygon of the compartment C1 whose id it carries. -/
theorem c5_witness :
    ∃ c ∈ [("C1", square10)],
      (SamplePlot.mk "SP-01" "C1" (5/3) (5/3)).compartment_id = c.1 ∧
      polyContains c.2 ((SamplePlot.mk "SP-01" "C1" (5/3) (5/3)).longitude,
        (SamplePlot.mk "SP-01" "C1" (5/3) (5/3)).latitude) = true :=
  c5_plot_containment [("C1", square10)] (1/50) 5 "systematic" const_stream
    sq_sys_plots (except_ok_of_toOption _ _ (by decide))
    (SamplePlot.mk "SP-01" "C1" (5/3) (5/3)) (by decide)

set_option maxRecDepth 100000 in
set_option maxHeartbeats 4000000 in
/-- Witness for claim C7: the systematic run over the single compartment
`square10` produces exactly the ids SP-01 ... SP-05. -/
theorem c7_witness :
    sq_sys_plots.map SamplePlot.plot_id =
      (List.range sq_sys_plots.length).map (fun i => plot_label (i + 1)) :=
  c7_plot_ids_sequential [("C1", square10)] (1/50) 5 "systematic" const_stream
    sq_sys_plots (except_ok_of_toOption _ _ (by decide))

/-- Counterexample to claim C8: a negative compartment count raises nothing —
the recursion's stop test `len(compartments) >= num_compartments` is
immediately true, so the core returns an empty compartment list instead of
failing. -/
theorem c8_counterexample_negative_count :
    (generate_compartments square10 (-1)).toOption = some [] := by
  decide

/-- Witness for claim C8 (amended): a two-vertex (hence invalid) ring is
rejected with an error. -/
theorem c8_witness :
    (generate_compartments [(0, 0), (1, 1)] 4).toOption = none :=
  c8_amended_partition_errors [(0, 0), (1, 1)] 4 (Or.inl (by decide))

/-- Witness for claim C9: the square partition stays within the `2^11`
compartment bound, and two streams that agree on the first `5 * 10` draws
give identical random placement runs. -/
theorem c9_witness :
    (recursive_bisection square10 4 25 [] 0).length ≤
      ([] : List Compartment).length + 2 ^ (11 - 0) ∧
    generate_random_plots square10 "C1" 5 const_stream 0 0 =
      generate_random_plots square10 "C1" 5 alt_stream 0 0 :=
  ⟨c9_bounded_work.1 square10 4 25 [] 0,
   c9_bounded_work.2 square10 "C1" 5 const_stream alt_stream 0 0 (by decide)⟩

set_option maxRecDepth 100000 in
set_option maxHeartbeats 4000000 in
/-- Witness for claim C10: the unrecognized method string "banana" takes the
random branch and the sampling request still succeeds. -/
theorem c10_witness :
    generate_plots_for_compartment square10 "C1" 5 "banana" const_stream 0 0 =
      generate_random_plots square10 "C1" 5 const_stream 0 0 ∧
    (generate_sample_plots [("C1", square10)] (1/50) 5 "banana"
        const_stream).toOption.isSome = true :=
  ⟨c10_unknown_method_uses_random.1 square10 "C1" 5 "banana" const_stream 0 0
      (by decide),
   c10_unknown_method_uses_random.2 [("C1", square10)] (1/50) 5 "banana"
      const_stream (by decide)⟩
